import Mathlib

/-!
Verification of the Daycue Telegram bot (`src/bot.py`, v1.2-beta-db).

The development shallowly embeds the pure core of the bot:
dates and the `HH:MM` / `YYYY-MM-DD` validation regexes, the cycle-day
modular arithmetic, the phase-boundary table, the onboarding
conversation handlers, the settings commands and the per-profile check
performed by the notification loop.  Python `date` values are embedded
as `PDate` records together with `toOrdinal` (Python's
`date.toordinal`), so that `date` subtraction becomes subtraction of
ordinals.  Handlers that can raise an uncaught exception return an
explicit `exn`-style constructor; handlers that reject input and
re-prompt return a `reprompt`/`invalid`-style constructor.
-/

namespace Daycue

/-- A proleptic-Gregorian calendar date, embedding Python's `datetime.date`. -/
structure PDate where
  y : Nat
  m : Nat
  d : Nat
deriving DecidableEq, Repr

/-- Leap-year test of the Gregorian calendar (Python `calendar.isleap`). -/
def isLeap (y : Nat) : Bool :=
  y % 4 == 0 && (y % 100 != 0 || y % 400 == 0)

/-- Number of days in month `m` of year `y` (months are 1-based; 0 outside 1..12). -/
def daysInMonth (y m : Nat) : Nat :=
  match m with
  | 1 => 31
  | 2 => if isLeap y then 29 else 28
  | 3 => 31
  | 4 => 30
  | 5 => 31
  | 6 => 30
  | 7 => 31
  | 8 => 31
  | 9 => 30
  | 10 => 31
  | 11 => 30
  | 12 => 31
  | _ => 0

/-- Days in the months of year `y` strictly before month `m`. -/
def daysBeforeMonth (y : Nat) : Nat → Nat
  | 0 => 0
  | p + 1 => daysBeforeMonth y p + daysInMonth y p

/-- Days in all years strictly before year `y` (year 1 is the first year). -/
def daysBeforeYear (y : Nat) : Nat :=
  365 * (y - 1) + (y - 1) / 4 - (y - 1) / 100 + (y - 1) / 400

/-- Python's `date.toordinal`: day number with `0001-01-01` as day 1. -/
def toOrdinal (p : PDate) : Nat :=
  daysBeforeYear p.y + daysBeforeMonth p.y p.m + p.d

/-- `(a - b).days` of Python `date` subtraction, as an integer. -/
def dateDiff (a b : PDate) : Int :=
  (toOrdinal a : Int) - (toOrdinal b : Int)

/-- Calendar validity as enforced by `datetime.date` (year 1..9999,
month 1..12, day within the month). -/
def validDate (y m d : Nat) : Bool :=
  1 ≤ y && y ≤ 9999 && 1 ≤ m && m ≤ 12 && 1 ≤ d && d ≤ daysInMonth y m

/-- Ordering of dates, as Python compares `date` values. -/
def dateLt (a b : PDate) : Bool :=
  toOrdinal a < toOrdinal b

/-! ### Character/string helpers used to embed the regexes and parsers -/

/-- `c` is an ASCII decimal digit. -/
def isDig (c : Char) : Bool :=
  '0' ≤ c && c ≤ '9'

/-- Numeric value of an ASCII digit character. -/
def dval (c : Char) : Nat :=
  c.toNat - '0'.toNat

/-- Shape-and-extract for `TIME_RE = ^\d\x7b2\x7d:\d\x7b2\x7d$`: `some (h, m)`
when the character list has exactly the shape two digits, colon, two
digits (`int` applied to each two-digit group), `none` otherwise. -/
def readHHMM : List Char → Option (Nat × Nat)
  | [c1, c2, c3, c4, c5] =>
    if isDig c1 && isDig c2 && c3 == ':' && isDig c4 && isDig c5 then
      some (10 * dval c1 + dval c2, 10 * dval c4 + dval c5)
    else
      none
  | _ => none

/-- `TIME_RE.match(s)` of the source: the string is exactly two digits,
a colon and two digits. -/
def TIME_RE (s : String) : Bool :=
  (readHHMM s.toList).isSome

/-- Shape-and-extract for `DATE_RE = ^\d\x7b4\x7d-\d\x7b2\x7d-\d\x7b2\x7d$`:
`some (y, m, d)` when the character list is four digits, dash, two
digits, dash, two digits; `none` otherwise. -/
def readYMD : List Char → Option (Nat × Nat × Nat)
  | [a1, a2, a3, a4, s1, b1, b2, s2, c1, c2] =>
    if isDig a1 && isDig a2 && isDig a3 && isDig a4 && s1 == '-' &&
        isDig b1 && isDig b2 && s2 == '-' && isDig c1 && isDig c2 then
      some (1000 * dval a1 + 100 * dval a2 + 10 * dval a3 + dval a4,
            10 * dval b1 + dval b2,
            10 * dval c1 + dval c2)
    else
      none
  | _ => none

/-- `DATE_RE.match(s)` of the source. -/
def DATE_RE (s : String) : Bool :=
  (readYMD s.toList).isSome

/-- Python's `date.fromisoformat` on a `YYYY-MM-DD` candidate: `none`
embeds the raised `ValueError` (shape mismatch or calendar-invalid
date), `some` the constructed date. -/
def fromisoformat (s : String) : Option PDate :=
  match readYMD s.toList with
  | none => none
  | some (y, m, d) => if validDate y m d then some ⟨y, m, d⟩ else none

/-- `_parse_time_hhmm` of the source: split on `:`, convert with `int`,
build `dt.time(h, m)`.  `none` embeds the `ValueError` raised by
`dt.time` when hour > 23 or minute > 59 (on a `TIME_RE`-shaped input
the split and `int` conversions themselves cannot fail). -/
def parse_time_hhmm (s : String) : Option (Nat × Nat) :=
  match readHHMM s.toList with
  | none => none
  | some (h, m) => if h ≤ 23 && m ≤ 59 then some (h, m) else none

/-- Result of the bot's time-parse path as a user observes it. -/
inductive TimeParse
  | ok (h m : Nat)
  | invalid
  | exnRaised
deriving DecidableEq, Repr

/-- The complete time-validation path the source applies to a candidate
notification time (`o_time` lines 529–533 and `cmd_set_time` lines
632–634): the `TIME_RE` guard re-prompts on shape mismatch (`invalid`),
after which the bare `_parse_time_hhmm` call raises an uncaught
`ValueError` (`exnRaised`) when the two-digit groups are out of
range. -/
def parse_time (s : String) : TimeParse :=
  if TIME_RE s then
    match parse_time_hhmm s with
    | some (h, m) => .ok h m
    | none => .exnRaised
  else .invalid

/-! ### Cycle math (`src/bot.py` lines 250–281) -/

/-- `_compute_period_length(start, end)`: 5 when `end` is `None`,
otherwise `max(1, (e - s).days + 1)` on the parsed dates.  The outer
`none` embeds the `ValueError` raised by `date.fromisoformat` when a
stored string is not a valid date. -/
def compute_period_length (start : String) (end? : Option String) : Option Int :=
  match end? with
  | none => some 5
  | some e =>
    match fromisoformat start, fromisoformat e with
    | some s, some ed => some (max 1 (dateDiff ed s + 1))
    | _, _ => none

/-- `_cycle_day_for(date_, cycle_start, cycle_len)`:
`(date_ - cycle_start).days % cycle_len + 1`.  Lean's `Int.emod` agrees
with Python's `%` for a positive modulus (result in `[0, cycle_len)`). -/
def cycle_day_for (date_ cycleStart : PDate) (cycleLen : Int) : Int :=
  dateDiff date_ cycleStart % cycleLen + 1

/-! ### Phase model (`src/bot.py` lines 261–281) -/

/-- `_phase_boundaries(cycle_len, period_len)`: the four day-ranges, as
the association list the Python dict iterates in insertion order
(menstrual, follicular, ovulatory, luteal).  `period_len` is first
clamped to `[3, 8]`; all subtractions stay non-negative on that range
(`ov_center ≥ 10`, `ov_start ≥ period_len + 1 ≥ 4`), so `Nat`
subtraction agrees with Python's. -/
def phase_boundaries (cycleLen periodLen : Nat) : List (String × Nat × Nat) :=
  let pl := min (max periodLen 3) 8
  let ovCenter := max 10 (cycleLen - 14)
  let ovStart := max (pl + 1) (ovCenter - 1)
  let ovEnd := min cycleLen (ovCenter + 1)
  let folStart := pl + 1
  let folEnd := max folStart (ovStart - 1)
  let lutStart := ovEnd + 1
  let lutEnd := cycleLen
  [("menstrual", 1, pl),
   ("follicular", folStart, folEnd),
   ("ovulatory", ovStart, ovEnd),
   ("luteal", lutStart, lutEnd)]

/-- `_phase_for_cycle_day(day, bounds)`: first range of the association
list containing `day`, with the source's `"luteal"` fallback when none
does. -/
def phase_for_cycle_day (day : Nat) : List (String × Nat × Nat) → String
  | [] => "luteal"
  | (phase, a, b) :: rest =>
    if a ≤ day && day ≤ b then phase else phase_for_cycle_day day rest

/-- How many of the ranges in an association list contain `day`. -/
def rangesContaining (day : Nat) (bounds : List (String × Nat × Nat)) : Nat :=
  (bounds.filter fun e => e.2.1 ≤ day && day ≤ e.2.2).length

/-! ### Menu and small string helpers (`src/bot.py` lines 42–47, 236–240) -/

def BTN_TODAY : String := "📍 Today"

def BTN_FORECAST : String := "🔮 Forecast"

def BTN_SETTINGS : String := "⚙️ Settings"

def BTN_ABOUT : String := "📚 About phase"

/-- `MENU_TEXTS` of the source, as a list. -/
def MENU_TEXTS : List String := [BTN_TODAY, BTN_FORECAST, BTN_SETTINGS, BTN_ABOUT]

/-- `_norm`: Python `str.strip()`, stripping surrounding whitespace. -/
def norm (s : String) : String :=
  ⟨((s.toList.dropWhile Char.isWhitespace).reverse.dropWhile Char.isWhitespace).reverse⟩

/-- Python `str.lower()` (the inputs the bot lowercases are ASCII). -/
def lowerStr (s : String) : String :=
  ⟨s.toList.map Char.toLower⟩

/-- `_is_menu_press`. -/
def is_menu_press (text : String) : Bool := MENU_TEXTS.contains (norm text)

/-- Python `str.isdigit` restricted to ASCII, which is all the bot ever
receives on the digit paths it guards with it. -/
def str_isdigit (s : String) : Bool :=
  !s.toList.isEmpty && s.toList.all isDig

/-- Python `int` on a digit string. -/
def str_toNat (s : String) : Nat :=
  s.toList.foldl (fun acc c => 10 * acc + dval c) 0

/-- Accumulating worker for `pySplit`: the second argument is the
current non-whitespace run, reversed. -/
def pySplitAux : List Char → List Char → List String
  | [], acc => if acc.isEmpty then [] else [⟨acc.reverse⟩]
  | c :: rest, acc =>
    if c.isWhitespace then
      if acc.isEmpty then pySplitAux rest [] else (⟨acc.reverse⟩ : String) :: pySplitAux rest []
    else pySplitAux rest (c :: acc)

/-- Python `str.split()` with no argument: split on whitespace runs,
discarding empty pieces. -/
def pySplit (s : String) : List String :=
  pySplitAux s.toList []

/-! ### Profile record (`src/bot.py` lines 62–72) -/

/-- `UserProfile` of the source.  This variant stores no
`last_notified_date` column: the notifier's day marker lives in the
in-memory `sent_today` dictionary local to `notification_loop`. -/
structure UserProfile where
  chat_id : Int
  partner_name : String
  partner_dob : Option String
  period_start : String
  period_end : Option String
  cycle_length : Nat
  notify_time : String
  tz : String
  paused : Bool
deriving DecidableEq, Repr

/-! ### Onboarding conversation (`src/bot.py` lines 438–559) -/

/-- The six conversation states `O_NICK .. O_TIME`. -/
inductive OStep
  | oNick
  | oDob
  | oStart
  | oEnd
  | oCycle
  | oTime
deriving DecidableEq, Repr

/-- `context.user_data` as the onboarding handlers populate it.  An
outer `none` means the key is absent from the dict; for the two
skippable fields the inner `Option` is the stored value (`None` after
`skip`). -/
structure UserData where
  partner_name : Option String := none
  partner_dob : Option (Option String) := none
  period_start : Option String := none
  period_end : Option (Option String) := none
  cycle_length : Option Nat := none
deriving DecidableEq, Repr

/-- Outcome of one onboarding handler call: `cont st d` is the state the
handler returned (the same state on a validation re-prompt, the next
one on success) with the user-data it left behind; `finish p` is
`ConversationHandler.END` after upserting profile `p`; `exn st d` is an
uncaught exception escaping the handler, which leaves the conversation
state and user-data as they were. -/
inductive HRes
  | cont (st : OStep) (d : UserData)
  | finish (p : UserProfile)
  | exn (st : OStep) (d : UserData)
deriving DecidableEq, Repr

/-- `o_nick`. -/
def o_nick (d : UserData) (text : String) : HRes :=
  if is_menu_press text then .cont .oNick d
  else
    let nick := norm text
    if nick.length < 2 then .cont .oNick d
    else .cont .oDob { d with partner_name := some nick }

/-- `o_dob`: `skip` stores `None`; otherwise the `DATE_RE` guard
re-prompts on shape mismatch, after which the bare
`dt.date.fromisoformat(t)` raises (uncaught) on a calendar-invalid
date. -/
def o_dob (d : UserData) (text : String) : HRes :=
  if is_menu_press text then .cont .oDob d
  else
    let t := lowerStr (norm text)
    if t == "skip" then .cont .oStart { d with partner_dob := some none }
    else if !(DATE_RE t) then .cont .oDob d
    else
      match fromisoformat t with
      | none => .exn .oDob d
      | some _ => .cont .oStart { d with partner_dob := some (some t) }

/-- `o_start`: same guard structure as `o_dob`, without `skip`. -/
def o_start (d : UserData) (text : String) : HRes :=
  if is_menu_press text then .cont .oStart d
  else
    let t := norm text
    if !(DATE_RE t) then .cont .oStart d
    else
      match fromisoformat t with
      | none => .exn .oStart d
      | some _ => .cont .oEnd { d with period_start := some t }

/-- `o_end`: `skip` stores `None`; otherwise shape guard, calendar
validation by exception, then the `end < start` check against the
value captured at the `O_START` step (`user_data["period_start"]`,
whose absence would be a `KeyError`). -/
def o_end (d : UserData) (text : String) : HRes :=
  if is_menu_press text then .cont .oEnd d
  else
    let t := lowerStr (norm text)
    if t == "skip" then .cont .oCycle { d with period_end := some none }
    else if !(DATE_RE t) then .cont .oEnd d
    else
      match fromisoformat t with
      | none => .exn .oEnd d
      | some e =>
        match d.period_start with
        | none => .exn .oEnd d
        | some ss =>
          match fromisoformat ss with
          | none => .exn .oEnd d
          | some s =>
            if dateLt e s then .cont .oEnd d
            else .cont .oCycle { d with period_end := some (some t) }

/-- `o_cycle`: digit guard, then the 21–35 range check. -/
def o_cycle (d : UserData) (text : String) : HRes :=
  if is_menu_press text then .cont .oCycle d
  else
    let t := norm text
    if !(str_isdigit t) then .cont .oCycle d
    else
      let n := str_toNat t
      if n < 21 || n > 35 then .cont .oCycle d
      else .cont .oTime { d with cycle_length := some n }

/-- `o_time`: `TIME_RE` guard, the bare `_parse_time_hhmm(t)` call
(whose `dt.time` raises, uncaught, on an out-of-range hour or minute),
then assembly of the `UserProfile` with `paused=False` and the default
timezone, and the upsert.  Required `user_data` keys are dict lookups
(`KeyError` if absent); the two skippable ones use `.get` (default
`None`). -/
def o_time (chatId : Int) (tzDefault : String) (d : UserData) (text : String) : HRes :=
  if is_menu_press text then .cont .oTime d
  else
    let t := norm text
    if !(TIME_RE t) then .cont .oTime d
    else
      match parse_time_hhmm t with
      | none => .exn .oTime d
      | some _ =>
        match d.partner_name, d.period_start, d.cycle_length with
        | some nick, some ps, some cl =>
          .finish { chat_id := chatId, partner_name := nick,
                    partner_dob := d.partner_dob.getD none,
                    period_start := ps,
                    period_end := d.period_end.getD none,
                    cycle_length := cl, notify_time := t,
                    tz := tzDefault, paused := false }
        | _, _, _ => .exn .oTime d

/-- Dispatch one inbound text to the handler of the current state, as
the `ConversationHandler` state table does. -/
def onboarding_step (chatId : Int) (tz : String) (st : OStep) (d : UserData)
    (text : String) : HRes :=
  match st with
  | .oNick => o_nick d text
  | .oDob => o_dob d text
  | .oStart => o_start d text
  | .oEnd => o_end d text
  | .oCycle => o_cycle d text
  | .oTime => o_time chatId tz d text

/-- Result of feeding a whole input sequence to the conversation. -/
inductive RunResult
  | inProgress (st : OStep) (d : UserData)
  | completed (p : UserProfile)
  | aborted (st : OStep) (d : UserData)
deriving DecidableEq, Repr

/-- Feed the texts one at a time, as the platform delivers them in
order to the single-threaded handler. -/
def run_onboarding (chatId : Int) (tz : String) :
    OStep → UserData → List String → RunResult
  | st, d, [] => .inProgress st d
  | st, d, text :: rest =>
    match onboarding_step chatId tz st d text with
    | .cont st2 d2 => run_onboarding chatId tz st2 d2 rest
    | .finish p => .completed p
    | .exn st2 d2 => .aborted st2 d2

/-! ### Association-list embedding of Python dicts keyed by chat id -/

/-- `dict.get`. -/
def getA {β : Type} : List (Int × β) → Int → Option β
  | [], _ => none
  | (k, v) :: rest, key => if k == key then some v else getA rest key

/-- `dict[key] = value`. -/
def setA {β : Type} : List (Int × β) → Int → β → List (Int × β)
  | [], key, value => [(key, value)]
  | (k, v) :: rest, key, value =>
    if k == key then (k, value) :: rest else (k, v) :: setA rest key value

/-! ### Notification loop (`src/bot.py` lines 703–741) -/

/-- The loop-local `sent_today: Dict[int, str]` mapping chat id to the
ISO local date last notified. -/
abbrev SentToday := List (Int × String)

/-- One `users` row as the loop's scan query returns it. -/
structure UserRow where
  chat_id : Int
  notify_time : String
  paused : Bool
deriving DecidableEq, Repr

/-- The per-row body of one notifier tick: skip paused rows; when the
profile's local wall-clock `HH:MM` equals `notify_time` and
`sent_today` does not already record today's local date for this chat,
fetch the profile and, when it exists, send the daily ping (counted in
the first component; `_send_daily_ping` swallows transport errors) and
record today's date in `sent_today`. -/
def notifier_check (sent : SentToday) (row : UserRow) (hhmm localDate : String)
    (profileFound : Bool) : Nat × SentToday :=
  if row.paused then (0, sent)
  else if hhmm == row.notify_time && getA sent row.chat_id != some localDate then
    if profileFound then (1, setA sent row.chat_id localDate) else (0, sent)
  else (0, sent)

/-! ### Settings commands (`src/bot.py` lines 627–675) -/

/-- Outcome of a settings command: `usage` when validation fails (a
usage message is sent, nothing changes), `exnRaised` when an uncaught
exception escapes the handler, `updated p` when the modified profile
`p` is upserted. -/
inductive CmdResult
  | usage
  | exnRaised
  | updated (p : UserProfile)
deriving DecidableEq, Repr

/-- `cmd_set_time`: `/set_time HH:MM`.  After the `TIME_RE` guard, the
bare `_parse_time_hhmm` call raises (uncaught) on an out-of-range
time. -/
def cmd_set_time (profile : UserProfile) (text : String) : CmdResult :=
  let parts := pySplit text
  if parts.length != 2 || !(TIME_RE (parts.getD 1 "")) then .usage
  else
    match parse_time_hhmm (parts.getD 1 "") with
    | none => .exnRaised
    | some _ => .updated { profile with notify_time := parts.getD 1 "" }

/-- `cmd_set_cycle`: `/set_cycle N` with `N` in 21–35. -/
def cmd_set_cycle (profile : UserProfile) (text : String) : CmdResult :=
  let parts := pySplit text
  if parts.length != 2 || !(str_isdigit (parts.getD 1 "")) then .usage
  else
    let n := str_toNat (parts.getD 1 "")
    if n < 21 || n > 35 then .usage
    else .updated { profile with cycle_length := n }

/-- `cmd_update_period`: `/update_period START [END]` with the same
date-shape guards, calendar validation by exception, and the
`END < START` rejection. -/
def cmd_update_period (profile : UserProfile) (text : String) : CmdResult :=
  let parts := pySplit text
  if parts.length != 2 && parts.length != 3 then .usage
  else
    let startS := parts.getD 1 ""
    let endS? : Option String :=
      if parts.length == 3 then some (parts.getD 2 "") else none
    if !(DATE_RE startS) || (match endS? with
        | some e => !(DATE_RE e)
        | none => false) then .usage
    else
      match fromisoformat startS with
      | none => .exnRaised
      | some s =>
        match endS? with
        | some e =>
          match fromisoformat e with
          | none => .exnRaised
          | some ed =>
            if dateLt ed s then .usage
            else .updated { profile with period_start := startS, period_end := endS? }
        | none => .updated { profile with period_start := startS, period_end := none }

/-- The state the two concurrent paths share: the persisted profiles
and the notifier's in-memory `sent_today` markers.  Settings commands
run in the message path and have no access to `sent_today`, which is a
local variable of `notification_loop`. -/
structure SysState where
  profiles : List (Int × UserProfile)
  sent_today : SentToday
deriving DecidableEq, Repr

/-- Effect of one settings command on the shared state: the profile is
replaced when the command reports `updated`; `sent_today` is untouched
because the command cannot reach it. -/
def apply_settings_cmd (cmd : UserProfile → String → CmdResult)
    (st : SysState) (chatId : Int) (text : String) : SysState :=
  match getA st.profiles chatId with
  | none => st
  | some p =>
    match cmd p text with
    | .updated p2 => { st with profiles := setA st.profiles chatId p2 }
    | _ => st

/-- Concrete profile for the settings/notifier scenario: chat 1,
notify time `09:00`. -/
def annaProfile : UserProfile :=
  ⟨1, "Anna", none, "2025-01-01", none, 28, "09:00", "Europe/Stockholm", false⟩

/-- Shared state in which chat 1's profile exists and the notifier has
already recorded a send for local date `2025-01-02`. -/
def notifiedState : SysState :=
  ⟨[(1, annaProfile)], [(1, "2025-01-02")]⟩

/-! ## Theorems -/

/-! ### Shared helper lemmas -/

/-- Exhaustive check of the phase table on the valid parameter box:
every day is in at least one range, and in exactly one except that for
`P = 8` and `L ≤ 24` day 9 is in exactly two. -/
theorem phase_cover_key : ∀ a, a < 15 → ∀ b, b < 6 → ∀ e, e < a + 21 →
    1 ≤ rangesContaining (e + 1) (phase_boundaries (a + 21) (b + 3)) ∧
      (rangesContaining (e + 1) (phase_boundaries (a + 21) (b + 3)) = 1 ∨
        (b + 3 = 8 ∧ a + 21 ≤ 24 ∧ e + 1 = 9 ∧
          rangesContaining (e + 1) (phase_boundaries (a + 21) (b + 3)) = 2)) := by
  decide

/-- Propositional repackaging of `phase_cover_key` over the valid
parameter box. -/
theorem phase_cover (L P d : Nat) (hL1 : 21 ≤ L) (hL2 : L ≤ 35)
    (hP1 : 3 ≤ P) (hP2 : P ≤ 8) (hd1 : 1 ≤ d) (hd2 : d ≤ L) :
    1 ≤ rangesContaining d (phase_boundaries L P) ∧
      (rangesContaining d (phase_boundaries L P) = 1 ∨
        (P = 8 ∧ L ≤ 24 ∧ d = 9 ∧ rangesContaining d (phase_boundaries L P) = 2)) := by
  obtain ⟨a, rfl⟩ : ∃ a, L = a + 21 := ⟨L - 21, by omega⟩
  obtain ⟨b, rfl⟩ : ∃ b, P = b + 3 := ⟨P - 3, by omega⟩
  obtain ⟨e, rfl⟩ : ∃ e, d = e + 1 := ⟨d - 1, by omega⟩
  exact phase_cover_key a (by omega) b (by omega) e (by omega)

/-- When some range of the association list contains `day`, the source's
first-match lookup returns a phase owning a range that contains `day`
(the `"luteal"` fallback is not exercised). -/
theorem phase_for_cycle_day_mem (day : Nat) :
    ∀ bounds : List (String × Nat × Nat), 1 ≤ rangesContaining day bounds →
    ∃ a b, (phase_for_cycle_day day bounds, a, b) ∈ bounds ∧ a ≤ day ∧ day ≤ b := by
  intro bounds
  induction bounds with
  | nil => intro h; simp [rangesContaining] at h
  | cons e rest ih =>
    obtain ⟨ph, a, b⟩ := e
    intro h
    by_cases hab : (a ≤ day && day ≤ b) = true
    · have hab2 : a ≤ day ∧ day ≤ b := by simpa using hab
      exact ⟨a, b, by simp [phase_for_cycle_day, hab], hab2.1, hab2.2⟩
    · have hrest : 1 ≤ rangesContaining day rest := by
        simpa [rangesContaining, List.filter, hab] using h
      obtain ⟨a2, b2, hmem, h1, h2⟩ := ih hrest
      refine ⟨a2, b2, ?_, h1, h2⟩
      simp only [phase_for_cycle_day, hab, if_false, Bool.false_eq_true]
      exact List.mem_cons_of_mem _ hmem

/-- `dict[k] = v` makes a later `dict.get(k)` return `v`. -/
theorem getA_setA_self {β : Type} (l : List (Int × β)) (k : Int) (v : β) :
    getA (setA l k v) k = some v := by
  induction l with
  | nil => simp [getA, setA]
  | cons e rest ih =>
    obtain ⟨k2, v2⟩ := e
    by_cases hk : k2 = k
    · simp [getA, setA, hk]
    · simp only [setA, beq_iff_eq, hk, if_false, getA, ih]

/-! ### C4 — cycle-day formula and range -/

/-- C4: for every pair of dates and every `cycle_length ≥ 1`,
`_cycle_day_for(today, period_start, L)` equals
`((today - period_start).days mod L) + 1` and lies in `[1, L]`,
including when `today < period_start` (Python-style modulo keeps
negative day deltas in range). -/
theorem cycle_day_formula_and_range (today start : PDate) (L : Int) (hL : 1 ≤ L) :
    cycle_day_for today start L = dateDiff today start % L + 1 ∧
    1 ≤ cycle_day_for today start L ∧ cycle_day_for today start L ≤ L := by
  refine ⟨rfl, ?_, ?_⟩
  · have h0 : 0 ≤ dateDiff today start % L :=
      Int.emod_nonneg _ (by omega)
    unfold cycle_day_for
    omega
  · have h1 : dateDiff today start % L < L :=
      Int.emod_lt_of_pos _ (by omega)
    unfold cycle_day_for
    omega

/-- C4 witness: `today = 2025-02-27` lies before `start = 2025-03-01`
(delta −2) and with `L = 28` the formula still yields a value in
`[1, 28]`. -/
theorem cycle_day_formula_and_range_witness :
    (1 : Int) ≤ 28 ∧
    (cycle_day_for ⟨2025, 2, 27⟩ ⟨2025, 3, 1⟩ 28
        = dateDiff ⟨2025, 2, 27⟩ ⟨2025, 3, 1⟩ % 28 + 1 ∧
      1 ≤ cycle_day_for ⟨2025, 2, 27⟩ ⟨2025, 3, 1⟩ 28 ∧
      cycle_day_for ⟨2025, 2, 27⟩ ⟨2025, 3, 1⟩ 28 ≤ 28) :=
  ⟨by norm_num, cycle_day_formula_and_range ⟨2025, 2, 27⟩ ⟨2025, 3, 1⟩ 28 (by norm_num)⟩

/-! ### C8 — periodicity of the cycle day -/

/-- C8: `_cycle_day_for` is periodic with period `cycle_length`: when
`today` is `start` shifted by `k * L` days (any integer `k`), the
cycle day is 1, as it is on `start` itself. -/
theorem cycle_day_periodic (today start : PDate) (L k : Int) (hL : 1 ≤ L)
    (hk : dateDiff today start = k * L) :
    cycle_day_for today start L = 1 ∧ cycle_day_for start start L = 1 := by
  constructor
  · unfold cycle_day_for
    rw [hk, Int.mul_emod_left]
    norm_num
  · unfold cycle_day_for
    have h0 : dateDiff start start = 0 := by
      unfold dateDiff; omega
    rw [h0, Int.zero_emod]
    norm_num

/-- C8 witness: `2025-01-29` is `2025-01-01 + 1·28` days, and the cycle
day there (and on the start date itself) is 1. -/
theorem cycle_day_periodic_witness :
    (1 : Int) ≤ 28 ∧ dateDiff ⟨2025, 1, 29⟩ ⟨2025, 1, 1⟩ = 1 * 28 ∧
    (cycle_day_for ⟨2025, 1, 29⟩ ⟨2025, 1, 1⟩ 28 = 1 ∧
      cycle_day_for ⟨2025, 1, 1⟩ ⟨2025, 1, 1⟩ 28 = 1) :=
  ⟨by norm_num, by decide,
    cycle_day_periodic ⟨2025, 1, 29⟩ ⟨2025, 1, 1⟩ 28 1 (by norm_num) (by decide)⟩

/-! ### C10 — period length -/

/-- C10: `_compute_period_length` returns exactly 5 when `period_end`
is `None`, and `max(1, (period_end - period_start).days + 1)` when both
boundary strings parse as dates. -/
theorem compute_period_length_spec (start : String) :
    compute_period_length start none = some 5 ∧
    ∀ e s ed, fromisoformat start = some s → fromisoformat e = some ed →
      compute_period_length start (some e) = some (max 1 (dateDiff ed s + 1)) := by
  refine ⟨rfl, ?_⟩
  intro e s ed hs he
  simp [compute_period_length, hs, he]

/-- C10 witness at the Scenario-B profile dates (period length 5). -/
theorem compute_period_length_spec_witness :
    fromisoformat "2025-01-01" = some ⟨2025, 1, 1⟩ ∧
    fromisoformat "2025-01-05" = some ⟨2025, 1, 5⟩ ∧
    compute_period_length "2025-01-01" (some "2025-01-05")
      = some (max 1 (dateDiff ⟨2025, 1, 5⟩ ⟨2025, 1, 1⟩ + 1)) :=
  ⟨by decide, by decide,
    (compute_period_length_spec "2025-01-01").2 "2025-01-05" ⟨2025, 1, 1⟩ ⟨2025, 1, 5⟩
      (by decide) (by decide)⟩

/-! ### C2 — the four ranges do not always partition `[1, L]` -/

/-- C2 counterexample: for `cycle_length = 21` and `period_length = 8`
the follicular range is `[9, 9]` and the ovulatory range is `[9, 11]`,
so day 9 lies in two of the four ranges — the ranges overlap and do not
partition `[1, 21]`. -/
theorem phase_ranges_overlap_cex :
    phase_boundaries 21 8 =
      [("menstrual", 1, 8), ("follicular", 9, 9),
        ("ovulatory", 9, 11), ("luteal", 12, 21)] ∧
    rangesContaining 9 (phase_boundaries 21 8) = 2 := by
  decide

/-- C2 (amended): for every `cycle_length` in `[21, 35]` and
`period_length` in `[3, 8]`, every day of `[1, L]` lies in at least one
of the four ranges (no gaps), and in exactly one except that for
`P = 8` and `L ≤ 24` day 9 lies in both the follicular and the
ovulatory range. -/
theorem phase_ranges_cover (L P d : Nat) (hL1 : 21 ≤ L) (hL2 : L ≤ 35)
    (hP1 : 3 ≤ P) (hP2 : P ≤ 8) (hd1 : 1 ≤ d) (hd2 : d ≤ L) :
    1 ≤ rangesContaining d (phase_boundaries L P) ∧
      (rangesContaining d (phase_boundaries L P) = 1 ∨
        (P = 8 ∧ L ≤ 24 ∧ d = 9 ∧ rangesContaining d (phase_boundaries L P) = 2)) :=
  phase_cover L P d hL1 hL2 hP1 hP2 hd1 hd2

/-- C2 (amended) witness at `L = 28`, `P = 5`, `d = 14`. -/
theorem phase_ranges_cover_witness :
    (21 ≤ 28 ∧ 28 ≤ 35 ∧ 3 ≤ 5 ∧ 5 ≤ 8 ∧ 1 ≤ 14 ∧ 14 ≤ 28) ∧
    (1 ≤ rangesContaining 14 (phase_boundaries 28 5) ∧
      (rangesContaining 14 (phase_boundaries 28 5) = 1 ∨
        (5 = 8 ∧ 28 ≤ 24 ∧ 14 = 9 ∧ rangesContaining 14 (phase_boundaries 28 5) = 2))) :=
  ⟨by norm_num,
    phase_ranges_cover 28 5 14 (by norm_num) (by norm_num) (by norm_num)
      (by norm_num) (by norm_num) (by norm_num)⟩

/-! ### C3 — totality of the phase lookup -/

/-- C3: for every valid `cycle_length`, `period_length` and day of
`[1, L]`, `_phase_for_cycle_day` over the computed boundaries returns a
phase, and one whose range actually contains the day — no day is
unmapped and the `"luteal"` fallback branch is never what maps it. -/
theorem phase_lookup_total (L P d : Nat) (hL1 : 21 ≤ L) (hL2 : L ≤ 35)
    (hP1 : 3 ≤ P) (hP2 : P ≤ 8) (hd1 : 1 ≤ d) (hd2 : d ≤ L) :
    ∃ a b, (phase_for_cycle_day d (phase_boundaries L P), a, b) ∈ phase_boundaries L P ∧
      a ≤ d ∧ d ≤ b :=
  phase_for_cycle_day_mem d (phase_boundaries L P)
    (phase_cover L P d hL1 hL2 hP1 hP2 hd1 hd2).1

/-- C3 witness at `L = 28`, `P = 5`, `d = 15` (Scenario A's ovulatory
day). -/
theorem phase_lookup_total_witness :
    ∃ a b, (phase_for_cycle_day 15 (phase_boundaries 28 5), a, b) ∈ phase_boundaries 28 5 ∧
      a ≤ 15 ∧ 15 ≤ b :=
  phase_lookup_total 28 5 15 (by norm_num) (by norm_num) (by norm_num)
    (by norm_num) (by norm_num) (by norm_num)

/-! ### Helper lemmas about the `HH:MM` shape reader -/

/-- A two-digits/colon/two-digits list is read as the denoted time. -/
theorem readHHMM_shape (c1 c2 c3 c4 : Char) (h1 : isDig c1 = true)
    (h2 : isDig c2 = true) (h3 : isDig c3 = true) (h4 : isDig c4 = true) :
    readHHMM [c1, c2, ':', c3, c4]
      = some (10 * dval c1 + dval c2, 10 * dval c3 + dval c4) := by
  simp [readHHMM, h1, h2, h3, h4]

/-- Conversely, a successful read means the list had exactly that
shape and the components are the digit values. -/
theorem readHHMM_inv {l : List Char} {h m : Nat} (hl : readHHMM l = some (h, m)) :
    ∃ c1 c2 c3 c4, l = [c1, c2, ':', c3, c4] ∧ isDig c1 = true ∧ isDig c2 = true ∧
      isDig c3 = true ∧ isDig c4 = true ∧
      h = 10 * dval c1 + dval c2 ∧ m = 10 * dval c3 + dval c4 := by
  match l with
  | [] => exact Option.noConfusion hl
  | [_] => exact Option.noConfusion hl
  | [_, _] => exact Option.noConfusion hl
  | [_, _, _] => exact Option.noConfusion hl
  | [_, _, _, _] => exact Option.noConfusion hl
  | _ :: _ :: _ :: _ :: _ :: _ :: _ :: _ => exact Option.noConfusion hl
  | [c1, c2, c3, c4, c5] =>
    simp only [readHHMM] at hl
    by_cases hg : (isDig c1 && isDig c2 && c3 == ':' && isDig c4 && isDig c5) = true
    · rw [if_pos hg] at hl
      simp only [Bool.and_eq_true, beq_iff_eq] at hg
      obtain ⟨⟨⟨⟨g1, g2⟩, g3⟩, g4⟩, g5⟩ := hg
      obtain ⟨hh, hm⟩ : 10 * dval c1 + dval c2 = h ∧ 10 * dval c4 + dval c5 = m := by
        simpa using hl
      subst g3
      exact ⟨c1, c2, c4, c5, rfl, g1, g2, g4, g5, hh.symm, hm.symm⟩
    · rw [if_neg hg] at hl
      exact Option.noConfusion hl

/-! ### C1 — at most one notification per profile per calendar day -/

/-- C1: on a tick where a non-paused profile's local `HH:MM` equals its
`notify_time` and the day marker does not yet record today's local
date, the notifier sends exactly one message and records today's date
for that chat; afterwards any further tick-check for that chat on the
same calendar day — at any wall-clock time — sends nothing and leaves
the marker map unchanged. -/
theorem notifier_at_most_once_per_day (sent : SentToday) (row : UserRow)
    (hhmm localDate : String) (hp : row.paused = false)
    (ht : hhmm = row.notify_time) (hm : getA sent row.chat_id ≠ some localDate) :
    (notifier_check sent row hhmm localDate true).1 = 1 ∧
    getA (notifier_check sent row hhmm localDate true).2 row.chat_id = some localDate ∧
    ∀ hhmm2 : String,
      notifier_check (notifier_check sent row hhmm localDate true).2 row hhmm2 localDate true
        = (0, (notifier_check sent row hhmm localDate true).2) := by
  have hcond : (hhmm == row.notify_time && getA sent row.chat_id != some localDate) = true := by
    simp [ht, hm]
  have h1 : notifier_check sent row hhmm localDate true
      = (1, setA sent row.chat_id localDate) := by
    simp [notifier_check, hp, hcond]
  refine ⟨by rw [h1], ?_, ?_⟩
  · rw [h1]
    exact getA_setA_self sent row.chat_id localDate
  · intro hhmm2
    rw [h1]
    simp [notifier_check, hp, getA_setA_self]

/-- C1 witness: a fresh marker map, a profile with `notify_time=09:00`,
a tick at `09:00` on `2025-01-02`, and a second tick at the same time
the same day. -/
theorem notifier_at_most_once_per_day_witness :
    (notifier_check [] ⟨1, "09:00", false⟩ "09:00" "2025-01-02" true).1 = 1 ∧
    getA (notifier_check [] ⟨1, "09:00", false⟩ "09:00" "2025-01-02" true).2 1
      = some "2025-01-02" ∧
    notifier_check (notifier_check [] ⟨1, "09:00", false⟩ "09:00" "2025-01-02" true).2
        ⟨1, "09:00", false⟩ "09:00" "2025-01-02" true
      = (0, (notifier_check [] ⟨1, "09:00", false⟩ "09:00" "2025-01-02" true).2) := by
  obtain ⟨h1, h2, h3⟩ :=
    notifier_at_most_once_per_day [] ⟨1, "09:00", false⟩ "09:00" "2025-01-02"
      rfl rfl (by decide)
  exact ⟨h1, h2, h3 "09:00"⟩

/-! ### C5 — calendar-invalid date during `O_START` -/

/-- C5: the input `"2025-13-40"` at the `PERIOD_START` step matches the
`DATE_RE` shape guard, so `o_start` reaches the bare
`dt.date.fromisoformat` call, which raises an uncaught `ValueError`:
the conversation stays at `O_START` with the session data unchanged,
but no corrective prompt is sent — the handler aborts instead of
re-prompting. -/
theorem o_start_invalid_date_raises (d : UserData) :
    DATE_RE "2025-13-40" = true ∧
    fromisoformat "2025-13-40" = none ∧
    o_start d "2025-13-40" = .exn .oStart d :=
  ⟨by decide, by decide, rfl⟩

/-! ### C6 — the time parser -/

/-- C6 counterexample: `"9:00"` is an `H:MM` string denoting the valid
time 09:00, yet the parse path rejects it (the regex demands two hour
digits); and `"25:61"` is not a valid time, yet instead of rejecting it
the parse path raises an uncaught `ValueError`. -/
theorem parse_time_claim_cex :
    parse_time "9:00" = .invalid ∧ parse_time "25:61" = .exnRaised := by
  decide

/-- C6 (amended): the parse path accepts exactly the strings of shape
`HH:MM` (exactly two digits on each side) whose hour is 0–23 and
minute 0–59, returning that time; every string not of the two-digit
shape is rejected; strings of the shape whose hour or minute is out of
range raise an uncaught `ValueError` instead of being rejected. -/
theorem parse_time_characterization (s : String) :
    (∀ h m, parse_time s = .ok h m ↔
      (∃ c1 c2 c3 c4, s.toList = [c1, c2, ':', c3, c4] ∧
        isDig c1 = true ∧ isDig c2 = true ∧ isDig c3 = true ∧ isDig c4 = true ∧
        h = 10 * dval c1 + dval c2 ∧ m = 10 * dval c3 + dval c4 ∧
        h ≤ 23 ∧ m ≤ 59)) ∧
    (parse_time s = .invalid ↔ readHHMM s.toList = none) ∧
    (parse_time s = .exnRaised ↔
      ∃ h m, readHHMM s.toList = some (h, m) ∧ ¬(h ≤ 23 ∧ m ≤ 59)) := by
  rcases hr : readHHMM s.toList with _ | ⟨h0, m0⟩
  · have hp : parse_time s = .invalid := by
      unfold parse_time TIME_RE
      rw [hr]
      simp
    refine ⟨?_, by simp [hp], ?_⟩
    · intro h m
      rw [hp]
      constructor
      · intro hcontra
        exact absurd hcontra (by simp)
      · rintro ⟨c1, c2, c3, c4, hs, h1, h2, h3, h4, -, -, -, -⟩
        rw [hs, readHHMM_shape c1 c2 c3 c4 h1 h2 h3 h4] at hr
        exact Option.noConfusion hr
    · rw [hp]
      constructor
      · intro hcontra
        exact absurd hcontra (by simp)
      · rintro ⟨h, m, hsome, -⟩
        exact Option.noConfusion hsome
  · have hT : TIME_RE s = true := by
      unfold TIME_RE
      rw [hr]
      rfl
    have hph : parse_time_hhmm s
        = if h0 ≤ 23 && m0 ≤ 59 then some (h0, m0) else none := by
      unfold parse_time_hhmm
      rw [hr]
    by_cases hrange : (h0 ≤ 23 && m0 ≤ 59) = true
    · have hp : parse_time s = .ok h0 m0 := by
        unfold parse_time
        rw [hT, hph]
        simp [hrange]
      have hrange2 : h0 ≤ 23 ∧ m0 ≤ 59 := by simpa using hrange
      refine ⟨?_, by simp [hp], ?_⟩
      · intro h m
        rw [hp]
        constructor
        · intro hok
          obtain ⟨hh, hm⟩ : h0 = h ∧ m0 = m := by
            simpa using hok
          obtain ⟨c1, c2, c3, c4, hs, h1, h2, h3, h4, hv1, hv2⟩ := readHHMM_inv hr
          exact ⟨c1, c2, c3, c4, hs, h1, h2, h3, h4, hh ▸ hv1, hm ▸ hv2,
            hh ▸ hrange2.1, hm ▸ hrange2.2⟩
        · rintro ⟨c1, c2, c3, c4, hs, h1, h2, h3, h4, hv1, hv2, -, -⟩
          rw [hs, readHHMM_shape c1 c2 c3 c4 h1 h2 h3 h4] at hr
          obtain ⟨e1, e2⟩ : 10 * dval c1 + dval c2 = h0 ∧ 10 * dval c3 + dval c4 = m0 := by
            simpa using hr
          rw [hv1, hv2, e1, e2]
      · rw [hp]
        constructor
        · intro hcontra
          exact absurd hcontra (by simp)
        · rintro ⟨h, m, hsome, hnot⟩
          obtain ⟨hh, hm⟩ : h0 = h ∧ m0 = m := by simpa using hsome
          exact absurd ⟨hh ▸ hrange2.1, hm ▸ hrange2.2⟩ hnot
    · have hp : parse_time s = .exnRaised := by
        unfold parse_time
        rw [hT, hph]
        simp [hrange]
      refine ⟨?_, by simp [hp], ?_⟩
      · intro h m
        rw [hp]
        constructor
        · intro hcontra
          exact absurd hcontra (by simp)
        · rintro ⟨c1, c2, c3, c4, hs, h1, h2, h3, h4, hv1, hv2, hh23, hm59⟩
          rw [hs, readHHMM_shape c1 c2 c3 c4 h1 h2 h3 h4] at hr
          obtain ⟨e1, e2⟩ : 10 * dval c1 + dval c2 = h0 ∧ 10 * dval c3 + dval c4 = m0 := by
            simpa using hr
          have hforced : (h0 ≤ 23 && m0 ≤ 59) = true := by
            rw [← e1, ← e2, ← hv1, ← hv2]
            simp [hh23, hm59]
          exact absurd hforced hrange
      · rw [hp]
        simp only [true_iff]
        exact ⟨h0, m0, rfl,
          fun hcontra => absurd (by simp [hcontra.1, hcontra.2]) hrange⟩

/-! ### C7 — onboarding Scenario B -/

/-- C7: feeding the input sequence
`["Anna", "skip", "2025-01-01", "2025-01-05", "28", "09:00"]` to the
onboarding conversation from its first state completes it and persists
a profile with `partner_name="Anna"`, `partner_dob=None`,
`period_start=2025-01-01`, `period_end=2025-01-05`, `cycle_length=28`,
`notify_time="09:00"` and `paused=False` (for any chat id and
configured default timezone). -/
theorem onboarding_scenario_b (chatId : Int) (tz : String) :
    run_onboarding chatId tz .oNick {}
        ["Anna", "skip", "2025-01-01", "2025-01-05", "28", "09:00"]
      = .completed { chat_id := chatId, partner_name := "Anna", partner_dob := none,
                     period_start := "2025-01-01", period_end := some "2025-01-05",
                     cycle_length := 28, notify_time := "09:00",
                     tz := tz, paused := false } :=
  rfl

/-! ### C9 — settings commands and the notification marker -/

/-- C9 counterexample: chat 1 was already notified on `2025-01-02`
(`sent_today` records that date); `/set_time 10:00` updates the
profile's `notify_time` to `10:00`, yet the marker is untouched, and
the following tick at the new time `10:00` on the same day sends
nothing — the changed profile did not become eligible again. -/
theorem settings_do_not_reset_marker_cex :
    (apply_settings_cmd cmd_set_time notifiedState 1 "/set_time 10:00").sent_today
      = [(1, "2025-01-02")] ∧
    (getA (apply_settings_cmd cmd_set_time notifiedState 1 "/set_time 10:00").profiles 1).map
        (fun p => p.notify_time) = some "10:00" ∧
    notifier_check
        (apply_settings_cmd cmd_set_time notifiedState 1 "/set_time 10:00").sent_today
        ⟨1, "10:00", false⟩ "10:00" "2025-01-02" true
      = (0, [(1, "2025-01-02")]) := by
  decide

/-- C9 (amended): no settings command (`/set_time`, `/set_cycle`,
`/update_period`) resets the notifier's day marker: the `sent_today`
entry survives any of them unchanged, so a profile already notified
today stays ineligible for the rest of that calendar day. -/
theorem settings_leave_marker_unchanged (cmd : UserProfile → String → CmdResult)
    (hcmd : cmd ∈ [cmd_set_time, cmd_set_cycle, cmd_update_period])
    (st : SysState) (chatId : Int) (text : String) (today : String)
    (hm : getA st.sent_today chatId = some today) (row : UserRow)
    (hrow : row.chat_id = chatId) (hhmm : String) (pf : Bool) :
    (apply_settings_cmd cmd st chatId text).sent_today = st.sent_today ∧
    (notifier_check (apply_settings_cmd cmd st chatId text).sent_today row hhmm today pf).1
      = 0 := by
  have hframe : (apply_settings_cmd cmd st chatId text).sent_today = st.sent_today := by
    unfold apply_settings_cmd
    rcases hgp : getA st.profiles chatId with _ | p
    · simp
    · rcases hc : cmd p text with _ | _ | p2 <;> simp [hc]
  refine ⟨hframe, ?_⟩
  rw [hframe]
  by_cases hpz : row.paused
  · simp [notifier_check, hpz]
  · have hget : getA st.sent_today row.chat_id = some today := by
      rw [hrow]; exact hm
    simp [notifier_check, hpz, hget]

/-- C9 (amended) witness: the `/set_time 10:00` scenario, checked
through the amended theorem. -/
theorem settings_leave_marker_unchanged_witness :
    (apply_settings_cmd cmd_set_time notifiedState 1 "/set_time 10:00").sent_today
      = notifiedState.sent_today ∧
    (notifier_check
        (apply_settings_cmd cmd_set_time notifiedState 1 "/set_time 10:00").sent_today
        ⟨1, "10:00", false⟩ "10:00" "2025-01-02" true).1 = 0 :=
  settings_leave_marker_unchanged cmd_set_time (List.mem_cons_self _ _) notifiedState 1
    "/set_time 10:00" "2025-01-02" (by decide) ⟨1, "10:00", false⟩ rfl "10:00" true

end Daycue
